import Mathlib

/-!
Verification development for the two analysis engines of the repository:
the DPTAD dual-path anomaly detector (`backend/ml/dptad_detector.py`) and
the SIWTL ideal-lap calculator (`backend/ml/siwtl_calculator.py`).

The Python code is shallowly embedded over `ℚ`:

* pandas/numpy floating-point arithmetic is modelled as exact rational
  arithmetic;
* a pandas `NaN` cell is modelled as `Option.none`, and presence of a
  DataFrame column is a `Bool` flag on the table structure;
* square roots (inside `np.std` / `pandas.Series.std`) are irrational in
  general, so every standard deviation is obtained from an explicit
  oracle parameter (`RealOps`); theorems that need anything about it
  assume only nonnegativity, which every real standard deviation enjoys;
* the scipy Butterworth `filtfilt` stage of the detector is numerical
  code with no reasonable exact model, so the two analysis paths are
  embedded from the post-filter stage on and theorems quantify over the
  filtered signal (hence over every possible filter output);
* Python exceptions are modelled with `Except`.
-/

-- Restore definitional reduction of rational arithmetic (sealed by the
-- library) so that concrete runs of the embedded code evaluate.
unseal Rat.mul Rat.inv Rat.add Rat.sub

namespace HTT

/-- Arithmetic mean of a list; Python `mean` of a nonempty list.  On `[]`
pandas yields `NaN`; the embedding yields the junk value `0`, and every
reachable use is on a nonempty list. -/
def mean (xs : List ℚ) : ℚ := xs.sum / (xs.length : ℚ)

/-- Minimum of a nonempty list, Python `min` / `Series.min`; junk `0` on `[]`. -/
def minListQ : List ℚ → ℚ
  | [] => 0
  | x :: xs => xs.foldl min x

/-- Maximum of a nonempty list, Python `max` / `Series.max`; junk `0` on `[]`. -/
def maxListQ : List ℚ → ℚ
  | [] => 0
  | x :: xs => xs.foldl max x

/-- Adjacent differences, `np.diff`: element `i` is `xs[i+1] - xs[i]`. -/
def diffs (xs : List ℚ) : List ℚ := List.zipWith (fun a b => a - b) xs.tail xs

/-- Helper for `uniqueFirst`, carrying the set of already seen elements. -/
def uniqueFirstAux {α : Type} [DecidableEq α] (seen : List α) : List α → List α
  | [] => []
  | x :: xs =>
    if x ∈ seen then uniqueFirstAux seen xs
    else x :: uniqueFirstAux (x :: seen) xs

/-- Distinct elements in order of first appearance — pandas `Series.unique`. -/
def uniqueFirst {α : Type} [DecidableEq α] (xs : List α) : List α :=
  uniqueFirstAux [] xs

/-- Oracle for the square-root based statistics of the source.  `popStd`
models `np.std` (population standard deviation), `sampleStd` models
`pandas.Series.std` (sample standard deviation, `ddof = 1`).  Standard
deviations are irrational in general, hence parameters of the embedding;
any real standard deviation is nonnegative, which is the only property
any theorem below assumes. -/
structure RealOps where
  popStd : List ℚ → ℚ
  sampleStd : List ℚ → ℚ

/-- A `RealOps` whose standard deviations are nonnegative, as every real
standard deviation is. -/
def RealOps.Nonneg (ops : RealOps) : Prop :=
  (∀ xs, 0 ≤ ops.popStd xs) ∧ ∀ xs, 0 ≤ ops.sampleStd xs

/-- Constant-zero oracle used to instantiate witnesses on inputs whose
control flow never consults the oracle. -/
def zeroOps : RealOps := ⟨fun _ => 0, fun _ => 0⟩

/-! ## DPTAD detector: configuration and candidate records -/

/-- Constructor parameters of `DPTADDetector` that the embedded stages
consume (the filter cutoffs belong to the scipy stage, which is modelled
as an arbitrary input transformation). -/
structure DptadConfig where
  spikeThreshold : ℚ
  driftThreshold : ℚ
deriving DecidableEq

/-- Defaults of `DPTADDetector.__init__`: spike threshold 3.0 standard
deviations, drift threshold 0.15. -/
def defaultDptadConfig : DptadConfig := ⟨3, 3 / 20⟩

/-- A slow-path drift candidate produced by `_slow_path_analysis`; the
constant dict entries `type = slow_drift` and `path = slow` are left
implicit in the record type. -/
structure SlowCand where
  timestamp : ℚ
  severity : ℚ
  signal : String
  driftMagnitude : ℚ
deriving DecidableEq

/-- A fast-path spike candidate produced by `_fast_path_analysis`; the
constant entries `type = fast_spike` and `path = fast` are implicit. -/
structure FastCand where
  timestamp : ℚ
  severity : ℚ
  signal : String
  spikeMagnitude : ℚ
  spikeSubtype : String
deriving DecidableEq

/-! ## DPTAD slow path (`_slow_path_analysis`, rolling-statistics stage) -/

/-- Centered rolling mean, `pd.Series(xs).rolling(w, center = True).mean()`
read at position `i`: the window of length `w` labelled at `i` spans
positions `[i - (w-1)/2, i + w/2]`; `none` models the `NaN` produced when
the window does not fit. -/
def rollingMean (xs : List ℚ) (w : ℕ) (i : ℕ) : Option ℚ :=
  if (w - 1) / 2 ≤ i ∧ i + w / 2 < xs.length then
    some (mean ((xs.drop (i - (w - 1) / 2)).take w))
  else none

/-- Mean that skips missing entries — `pandas.Series.mean` default
`skipna` behaviour on a slice containing `NaN` cells. -/
def nanMean (l : List (Option ℚ)) : ℚ := mean (l.filterMap id)

/-- Window size used by the slow path: `min(len // 10, 50)`. -/
def windowSize (n : ℕ) : ℕ := min (n / 10) 50

/-- Mean of the slice `rolling_mean.iloc[a : a + w]` of the rolling-mean
series (`NaN` entries skipped by `Series.mean`). -/
def trendMean (xs : List ℚ) (w a : ℕ) : ℚ :=
  nanMean ((List.range' a w).map (rollingMean xs w))

/-- Slow path of `DPTADDetector` from the rolling-statistics stage on
(lines 130–159 of the source), taking the already low-pass-filtered
signal `xs`.  `ts i` is `timestamps[i]`; `ops.popStd xs` is
`np.std(filtered_signal)`. -/
def slowPathAnalysis (ops : RealOps) (cfg : DptadConfig) (ts : ℕ → ℚ)
    (xs : List ℚ) (sig : String) : List SlowCand :=
  let n := xs.length
  let w := windowSize n
  if w < 5 then []
  else
    let driftThreshold := ops.popStd xs * cfg.driftThreshold
    (List.range' w (n - w - w)).filterMap fun i =>
      -- the guard `pd.notna(rolling_mean.iloc[i])`
      if (rollingMean xs w i).isSome then
        let recentTrend := trendMean xs w (i - w)
        let currentTrend := trendMean xs w i
        if decide (driftThreshold < |currentTrend - recentTrend|) then
          some { timestamp := ts i
                 severity := min (|currentTrend - recentTrend| / driftThreshold) 10
                 signal := sig
                 driftMagnitude := currentTrend - recentTrend }
        else none
      else none

/-! ## DPTAD fast path (`_fast_path_analysis`, spike-detection stage) -/

/-- Helper of `groupSpikes`: `prev` is the previously seen index, `cur`
the current group accumulated in reverse. -/
def groupSpikesGo (minSep prev : ℕ) (cur : List ℕ) : List ℕ → List (List ℕ)
  | [] => [cur.reverse]
  | j :: rest =>
    if j - prev ≤ minSep then groupSpikesGo minSep j (j :: cur) rest
    else cur.reverse :: groupSpikesGo minSep j [j] rest

/-- The detector method `_group_spikes`: merge increasing indices into
groups whose consecutive members are at most `minSep` apart. -/
def groupSpikes (minSep : ℕ) : List ℕ → List (List ℕ)
  | [] => []
  | i :: rest => groupSpikesGo minSep i [i] rest

/-- Value of the filtered signal at index `i` (indices produced by the
spike scan are always in range; out of range yields junk `0`). -/
def sigAt (ys : List ℚ) (i : ℕ) : ℚ := ys.getD i 0

/-- Index of the first maximal `|ys[·]|` within a group —
`group[np.argmax(np.abs(filtered_signal[group]))]` (`np.argmax` returns
the first maximiser). -/
def argmaxAbs (ys : List ℚ) : List ℕ → ℕ
  | [] => 0
  | i :: rest => rest.foldl (fun best j =>
      if decide (|sigAt ys best| < |sigAt ys j|) then j else best) i

/-- The detector method `_classify_spike` (the magnitude argument is
unused in the source as well). -/
def classifySpike (signalName : String) (_magnitude rawValue : ℚ) : String :=
  let c := signalName.toLower
  if c = "brake" then
    if rawValue < 0 then "brake_release_error" else "brake_spike"
  else if c = "throttle" then
    if rawValue < 0 then "lift_hesitation" else "throttle_stab"
  else if c = "speed" then
    if rawValue < 0 then "lock_up" else "traction_loss"
  else if c = "steering_angle" then
    -- the steering entry has no `negative` key, so both signs map to `high`
    "overcorrection"
  else c ++ "_anomaly"

/-- Fast path of `DPTADDetector` from the spike-detection stage on
(lines 196–225 of the source): `ys` is the band-pass-filtered signal,
`raw i` is `signal_data[i]` (the unfiltered signal, consulted by
`_classify_spike`), `ops.popStd ys` is `np.std(filtered_signal)`. -/
def fastPathAnalysis (ops : RealOps) (cfg : DptadConfig) (ts : ℕ → ℚ)
    (ys : List ℚ) (sig : String) (raw : ℕ → ℚ) : List FastCand :=
  let spikeThreshold := ops.popStd ys * cfg.spikeThreshold
  let spikeIndices := (List.range ys.length).filter fun i =>
    decide (spikeThreshold < |sigAt ys i|)
  let spikeGroups := groupSpikes 5 spikeIndices
  spikeGroups.map fun group =>
    let peakIdx := argmaxAbs ys group
    let spikeMagnitude := |sigAt ys peakIdx|
    { timestamp := ts peakIdx
      severity := min (spikeMagnitude / spikeThreshold) 10
      signal := sig
      spikeMagnitude := spikeMagnitude
      spikeSubtype := classifySpike sig spikeMagnitude (raw peakIdx) }

/-! ## DPTAD reconciliation and summary -/

/-- A reconciled anomaly, the dict built by `_reconcile_paths`. -/
structure Reconciled where
  timestamp : ℚ
  rtype : String
  severity : ℚ
  signal : String
  description : String
  fastComponent : Option FastCand
  slowComponent : Option SlowCand
  recommendedAction : String
deriving DecidableEq

/-- The detector method `_get_recommendation`. -/
def getRecommendation (anomalyType signalName : String) : String :=
  if anomalyType = "driver_mistake" then
    if signalName = "brake" then
      "Focus on smoother brake application. Avoid sudden brake spikes."
    else if signalName = "throttle" then
      "Work on progressive throttle control. Eliminate stabs and hesitation."
    else if signalName = "speed" then
      "Address lock-up tendency. Brake earlier and more progressively."
    else if signalName = "steering_angle" then
      "Reduce steering corrections. Focus on smooth, deliberate inputs."
    else "Monitor " ++ signalName ++ " performance and adjust technique accordingly."
  else if anomalyType = "degradation" then
    if signalName = "brake" then
      "Monitor brake temperature and pad wear. Consider pit strategy."
    else if signalName = "throttle" then
      "Check engine performance and throttle response calibration."
    else if signalName = "speed" then
      "Assess tire degradation and grip levels. Adjust driving style."
    else if signalName = "steering_angle" then
      "Evaluate suspension setup and tire pressure."
    else "Monitor " ++ signalName ++ " performance and adjust technique accordingly."
  else if anomalyType = "compound" then
    "Multiple issues detected. Address both technique and equipment."
  else "Monitor " ++ signalName ++ " performance and adjust technique accordingly."

/-- Maximum severity of a nonempty candidate list,
`max(s[severity] for s in nearby_slow)`; junk `0` on `[]` (unreachable:
the source only evaluates it under `if nearby_slow`). -/
def maxSeverity (l : List SlowCand) : ℚ := maxListQ (l.map (·.severity))

/-- Body of the first `_reconcile_paths` loop: the record appended for
one fast-path candidate. -/
def reconcileFast (slow : List SlowCand) (sig : String)
    (f : FastCand) : Reconciled :=
  let nearbySlow := slow.filter fun s => decide (|s.timestamp - f.timestamp| ≤ 10)
  if nearbySlow.isEmpty then
    { timestamp := f.timestamp
      rtype := "driver_mistake"
      severity := f.severity
      signal := sig
      description := "Driver mistake: " ++ f.spikeSubtype
      fastComponent := some f
      slowComponent := none
      recommendedAction := getRecommendation "driver_mistake" sig }
  else
    { timestamp := f.timestamp
      rtype := "compound"
      severity := max f.severity (maxSeverity nearbySlow)
      signal := sig
      description := "Compound issue: " ++ f.spikeSubtype ++ " with degradation"
      fastComponent := some f
      slowComponent := nearbySlow.head?
      recommendedAction := getRecommendation "compound" sig }

/-- The isolation test of the second `_reconcile_paths` loop:
`not any(abs(slow['timestamp'] - ft) <= temporal_window for ft in
fast_times)` (the source materialises the fast timestamps as a set,
which does not change the existential test). -/
def isolatedTest (fast : List FastCand) (s : SlowCand) : Bool :=
  fast.all fun f => decide (10 < |s.timestamp - f.timestamp|)

/-- The record appended for one isolated slow-path candidate. -/
def degradationRecord (sig : String) (s : SlowCand) : Reconciled :=
  { timestamp := s.timestamp
    rtype := "degradation"
    severity := s.severity
    signal := sig
    description := "Performance degradation in " ++ sig
    fastComponent := none
    slowComponent := some s
    recommendedAction := getRecommendation "degradation" sig }

/-- The method `_reconcile_paths`: the first loop appends one record per
fast candidate (compound when a slow candidate lies within the temporal
window 10 of its timestamp, driver mistake otherwise), the second loop
appends one degradation record per slow candidate not within the window
of any fast candidate. -/
def reconcilePaths (slow : List SlowCand) (fast : List FastCand)
    (sig : String) : List Reconciled :=
  fast.map (reconcileFast slow sig)
  ++ slow.filterMap fun s =>
    if isolatedTest fast s then some (degradationRecord sig s) else none

/-- The summary dict of `get_anomaly_summary`.  The empty-input branch of
the source returns a dict without the `severity_max` and
`high_severity_count` keys; absence is modelled by `none`. -/
structure AnomalySummary where
  totalAnomalies : ℕ
  severityAvg : ℚ
  severityMax : Option ℚ
  types : List (String × ℕ)
  signalsAffected : List String
  highSeverityCount : Option ℕ
  recommendation : String
deriving DecidableEq

/-- Occurrence counts by first appearance, then sorted by count
descending — pandas `value_counts` (whose order among equal counts is
unspecified; this model keeps first-appearance order among ties). -/
def valueCounts (xs : List String) : List (String × ℕ) :=
  let counts := (uniqueFirst xs).map fun v => (v, (xs.filter (fun y => decide (y = v))).length)
  counts.mergeSort fun a b => b.2 ≤ a.2

/-- First (most frequent) entry of `value_counts().index`; junk `""` on
an empty list, unreachable in the source. -/
def dominant (xs : List String) : String :=
  ((valueCounts xs).head?.map (·.1)).getD ""

/-- The method `_generate_summary_recommendation`. -/
def generateSummaryRecommendation (l : List Reconciled) : String :=
  if l.length = 0 then "Maintain current performance level."
  else
    let dominantType := dominant (l.map (·.rtype))
    let dominantSignal := dominant (l.map (·.signal))
    let avgSeverity := mean (l.map (·.severity))
    if dominantType = "driver_mistake" then
      if 7 < avgSeverity then
        "Critical: Focus immediately on " ++ dominantSignal ++
          " technique. Multiple driver errors detected."
      else if 4 < avgSeverity then
        "Important: Improve " ++ dominantSignal ++
          " consistency. Driver technique issues identified."
      else
        "Minor technique adjustments needed in " ++ dominantSignal ++ " control."
    else if dominantType = "degradation" then
      if 6 < avgSeverity then
        "Equipment attention required: " ++ dominantSignal ++
          " showing significant degradation."
      else
        "Monitor " ++ dominantSignal ++ " performance trends. Early degradation detected."
    else if dominantType = "compound" then
      "Address both technique and equipment issues in " ++ dominantSignal ++ "."
    else "Review performance data and adjust accordingly."

/-- The method `get_anomaly_summary`. -/
def getAnomalySummary (l : List Reconciled) : AnomalySummary :=
  if l.length = 0 then
    { totalAnomalies := 0
      severityAvg := 0
      severityMax := none
      types := []
      signalsAffected := []
      highSeverityCount := none
      recommendation := "No anomalies detected. Performance is consistent." }
  else
    { totalAnomalies := l.length
      severityAvg := mean (l.map (·.severity))
      severityMax := some (maxListQ (l.map (·.severity)))
      types := valueCounts (l.map (·.rtype))
      signalsAffected := uniqueFirst (l.map (·.signal))
      highSeverityCount := some ((l.filter fun a => decide (5 < a.severity)).length)
      recommendation := generateSummaryRecommendation l }

/-! ## DPTAD pipeline (`detect_anomalies`, `analyze_driver_anomalies`) -/

/-- Telemetry table passed to the detector: named sample columns plus the
optional `timestamp` column.  A DataFrame keeps all columns at one common
length, recorded in `nrows`. -/
structure DpTelemetry where
  nrows : ℕ
  cols : List (String × List ℚ)
  timestamp : Option (List ℚ)

/-- Column lookup, `telemetry_data[name]` (first binding wins). -/
def DpTelemetry.col (t : DpTelemetry) (name : String) : Option (List ℚ) :=
  (t.cols.find? fun p => decide (p.1 = name)).map (·.2)

/-- Indexing into `timestamps = telemetry_data.get('timestamp', range(len))`:
the timestamp column when present, the sample index otherwise. -/
def DpTelemetry.ts (t : DpTelemetry) : ℕ → ℚ :=
  match t.timestamp with
  | some l => fun i => l.getD i 0
  | none => fun i => (i : ℚ)

/-- Default signal list of `detect_anomalies`. -/
def defaultSignals : List String := ["speed", "throttle", "brake", "steering_angle"]

/-- Sort by severity, highest first —
`anomaly_df.sort_values('severity', ascending = False)` (whose order
among equal severities is unspecified; this model is stable). -/
def sortBySeverityDesc (l : List Reconciled) : List Reconciled :=
  l.mergeSort fun a b => b.severity ≤ a.severity

/-- Per-signal body of the `detect_anomalies` loop.  `fslow` and `ffast`
model the scipy zero-phase filter stages (`none` = the path is skipped:
signal shorter than the padding length, or filter design failed). -/
def analyzeSignal (ops : RealOps) (cfg : DptadConfig)
    (fslow ffast : List ℚ → Option (List ℚ)) (t : DpTelemetry)
    (sig : String) : List Reconciled :=
  match t.col sig with
  | none => []
  | some data =>
    let tsf := t.ts
    let slowA := match fslow data with
      | none => []
      | some filtered => slowPathAnalysis ops cfg tsf filtered sig
    let fastA := match ffast data with
      | none => []
      | some filtered => fastPathAnalysis ops cfg tsf filtered sig (sigAt data)
    reconcilePaths slowA fastA sig

/-- The method `detect_anomalies`: guard against absent or empty
telemetry, analyse each requested signal whose column exists, and sort
the reconciled anomalies by severity descending. -/
def detectAnomalies (ops : RealOps) (cfg : DptadConfig)
    (fslow ffast : List ℚ → Option (List ℚ)) (tel : Option DpTelemetry)
    (signals : Option (List String)) : List Reconciled :=
  let sigs := signals.getD defaultSignals
  match tel with
  | none => []
  | some t =>
    if t.nrows = 0 then []
    else sortBySeverityDesc (sigs.flatMap (analyzeSignal ops cfg fslow ffast t))

/-- The dict returned by the module-level `analyze_driver_anomalies`. -/
structure DpOutput where
  vehicleId : String
  anomalies : List Reconciled
  summary : AnomalySummary
  algorithm : String
  analysisTimestamp : String

/-- The module-level `analyze_driver_anomalies`.  `now` models the
ambient wall clock read by `pd.Timestamp.now().isoformat()`. -/
def analyzeDriverAnomalies (ops : RealOps) (cfg : DptadConfig)
    (fslow ffast : List ℚ → Option (List ℚ)) (now vehicleId : String)
    (tel : Option DpTelemetry) : DpOutput :=
  let anomaliesDf := detectAnomalies ops cfg fslow ffast tel none
  { vehicleId := vehicleId
    anomalies := anomaliesDf
    summary := getAnomalySummary anomaliesDf
    algorithm := "DPTAD v1.0 - Dual-Path Temporal Anomaly Detection"
    analysisTimestamp := now }

/-! ## SIWTL calculator: configuration and data model

The lap table (`driver_data`) and sector table (`sector_data`) are
DataFrames; a column is modelled by a presence flag on the table plus an
`Option ℚ` cell per row (`none` = `NaN`).  Filtered views such as
`valid_laps` keep the original row labels (pandas retains the index of a
filtered frame), modelled as the row position in the original table. -/

/-- Constructor parameters of `SIWTLCalculator`: the five achievability
factor weights. -/
structure SiwtlConfig where
  consistencyWeight : ℚ
  smoothnessWeight : ℚ
  conditionsWeight : ℚ
  temperatureWeight : ℚ
  trafficWeight : ℚ
deriving DecidableEq

/-- Defaults of `SIWTLCalculator.__init__`: 0.3, 0.25, 0.2, 0.15, 0.1. -/
def defaultSiwtlConfig : SiwtlConfig := ⟨3/10, 1/4, 1/5, 3/20, 1/10⟩

/-- One row of the lap table.  Only the columns the calculator reads are
modelled; `lap_number` values are never read (only the column's
presence is checked), so the row carries no such field. -/
structure DriverRow where
  lapTimeMs : Option ℚ
  stintNumber : Option ℚ
  airTemp : Option ℚ
  trackTemp : Option ℚ
  tempDeltaFromStart : Option ℚ
  trafficIndicator : Option ℚ
  yellowFlagIndicator : Option ℚ
  isClearLap : Option ℚ
deriving DecidableEq

/-- The lap table `driver_data` with its column-presence flags. -/
structure DriverData where
  hasLapNumber : Bool
  hasLapTimeMs : Bool
  hasStintNumber : Bool
  hasAirTemp : Bool
  hasTrackTemp : Bool
  hasTempDeltaFromStart : Bool
  hasTrafficIndicator : Bool
  hasYellowFlagIndicator : Bool
  hasIsClearLap : Bool
  rows : List DriverRow
deriving DecidableEq

/-- One row of the sector table (`sector_1_time .. sector_3_time`). -/
structure SectorRow where
  sector1 : Option ℚ
  sector2 : Option ℚ
  sector3 : Option ℚ
deriving DecidableEq

/-- The sector table `sector_data` with its column-presence flags. -/
structure SectorData where
  hasSector1 : Bool
  hasSector2 : Bool
  hasSector3 : Bool
  rows : List SectorRow
deriving DecidableEq

/-- One row of the optional telemetry table used for smoothness. -/
structure TelRow where
  throttle : ℚ
  brake : ℚ
  steeringAngle : ℚ
deriving DecidableEq

/-- The telemetry table passed to the calculator.  `NaN` telemetry cells
fall outside this numeric model; no claim depends on them. -/
structure TelemetryData where
  hasThrottle : Bool
  hasBrake : Bool
  hasSteeringAngle : Bool
  rows : List TelRow
deriving DecidableEq

/-- Presence of a sector column by number (`1..3`). -/
def SectorData.hasCol (s : SectorData) : ℕ → Bool
  | 1 => s.hasSector1
  | 2 => s.hasSector2
  | 3 => s.hasSector3
  | _ => false

/-- The series `sector_data[col]` for sector `k`, carrying the original
row labels. -/
def SectorData.colVals (s : SectorData) (k : ℕ) : List (ℕ × Option ℚ) :=
  s.rows.enum.map fun p =>
    (p.1, match k with
          | 1 => p.2.sector1
          | 2 => p.2.sector2
          | 3 => p.2.sector3
          | _ => none)

/-- Sector-time validity filter `(t > 20) & (t < 80)`; a `NaN` cell
compares `False`. -/
def validSectorTimes (col : List (ℕ × Option ℚ)) : List (ℕ × ℚ) :=
  col.filterMap fun p =>
    match p.2 with
    | some t => if decide (20 < t ∧ t < 80) then some (p.1, t) else none
    | none => none

/-- Lap validity filter `120000 ≤ lap_time_ms ≤ 200000` of
`calculate_siwtl`, keeping original row labels; a `NaN` lap time
compares `False`. -/
def validLaps (d : DriverData) : List (ℕ × DriverRow) :=
  d.rows.enum.filter fun p =>
    match p.2.lapTimeMs with
    | some t => decide (120000 ≤ t ∧ t ≤ 200000)
    | none => false

/-- Lap-time value of a valid lap (`valid_laps['lap_time_ms']`); the
filter guarantees the cell is present, `0` is unreachable junk. -/
def lapMs (p : ℕ × DriverRow) : ℚ := p.2.lapTimeMs.getD 0

/-! ## SIWTL sub-scores (`_calculate_*_score`) -/

/-- The method `_calculate_consistency_score` over the valid sector-time
values; `ops.sampleStd` is `pandas.Series.std`. -/
def consistencyScoreOf (ops : RealOps) (times : List ℚ) : ℚ :=
  if times.length < 2 then 1/2
  else
    let cv := ops.sampleStd times / mean times
    max 0 (min 1 ((1/10 - cv) / (9/100)))

/-- The method `_calculate_smoothness_score`; `ops.popStd` is `np.std`
over the first differences of a control signal.  The `sector_num`
argument is unused in the source as well. -/
def smoothnessScoreOf (ops : RealOps) (t : TelemetryData) (_sectorNum : ℕ) : ℚ :=
  if t.rows.length = 0 then 7/10
  else
    let signalData : List (List ℚ) :=
      (if t.hasThrottle then [t.rows.map (·.throttle)] else []) ++
      (if t.hasBrake then [t.rows.map (·.brake)] else []) ++
      (if t.hasSteeringAngle then [t.rows.map (·.steeringAngle)] else [])
    if signalData.isEmpty then 7/10
    else
      let smoothnessScores := signalData.filterMap fun data =>
        if 1 < data.length then some (1 / (1 + ops.popStd (diffs data))) else none
      if smoothnessScores.isEmpty then 7/10 else mean smoothnessScores

/-- Equality test used by `valid_laps['stint_number'] == stint`: a `NaN`
stint label equals nothing (not even itself). -/
def stintEq : Option ℚ → Option ℚ → Bool
  | some a, some b => decide (a = b)
  | _, _ => false

/-- The method `_calculate_conditions_score`.  `valid_laps` carries
original lap-table row labels, `sectorTimes` the valid sector times with
original sector-table row labels; `stint_laps.index.intersection(...)`
intersects the two label sets (both increasing, so the result order is
the common increasing order). -/
def conditionsScoreOf (ops : RealOps) (hasStint : Bool)
    (vl : List (ℕ × DriverRow)) (sectorTimes : List (ℕ × ℚ)) : ℚ :=
  if hasStint then
    let stints := uniqueFirst (vl.map (·.2.stintNumber))
    let stintSectorMeans := stints.filterMap fun stint =>
      let stintLaps := vl.filter fun p => stintEq p.2.stintNumber stint
      if 2 < stintLaps.length then
        let stintIdx := (stintLaps.map (·.1)).filter fun i =>
          decide (i ∈ sectorTimes.map (·.1))
        if 0 < stintIdx.length then
          some (mean (stintIdx.filterMap fun i =>
            (sectorTimes.find? fun q => decide (q.1 = i)).map (·.2)))
        else none
      else none
    if 1 < stintSectorMeans.length then
      let stintVariation := ops.popStd stintSectorMeans
      max (3/10) (min 1 ((2 - stintVariation) / 2))
    else 3/4
  else 3/4

/-- The three temperature-related columns in the order the source lists
them. -/
inductive TempCol
  | air
  | track
  | delta
deriving DecidableEq

/-- Cell of a temperature column in a lap row. -/
def tempCell : TempCol → DriverRow → Option ℚ
  | .air, r => r.airTemp
  | .track, r => r.trackTemp
  | .delta, r => r.tempDeltaFromStart

/-- The method `_calculate_temperature_score`. -/
def temperatureScoreOf (d : DriverData) (vl : List (ℕ × DriverRow)) : ℚ :=
  let availableTemp : List TempCol :=
    (if d.hasAirTemp then [TempCol.air] else []) ++
    (if d.hasTrackTemp then [TempCol.track] else []) ++
    (if d.hasTempDeltaFromStart then [TempCol.delta] else [])
  if availableTemp.isEmpty then 4/5
  else
    let tempScores := availableTemp.filterMap fun c =>
      let tempData := vl.filterMap fun p => tempCell c p.2
      if 1 < tempData.length then
        let tempRange := maxListQ tempData - minListQ tempData
        some (match c with
          | .air => max (1/5) (min 1 ((5 - tempRange) / 5))
          | .track => max (1/5) (min 1 ((10 - tempRange) / 10))
          | .delta => max (1/5) (min 1 ((3 - |tempRange|) / 3)))
      else none
    if tempScores.isEmpty then 4/5 else mean tempScores

/-- The three traffic-indicator columns in the order the source lists
them. -/
inductive TrafficCol
  | traffic
  | yellow
  | isClear
deriving DecidableEq

/-- Cell of a traffic-indicator column in a lap row. -/
def trafficCell : TrafficCol → DriverRow → Option ℚ
  | .traffic, r => r.trafficIndicator
  | .yellow, r => r.yellowFlagIndicator
  | .isClear, r => r.isClearLap

/-- The method `_calculate_traffic_score`: `clear_laps` accumulates over
all indicator columns while `total_scored_laps` is the running maximum
of their lengths, exactly as in the source. -/
def trafficScoreOf (d : DriverData) (vl : List (ℕ × DriverRow)) : ℚ :=
  let availableIndicators : List TrafficCol :=
    (if d.hasTrafficIndicator then [TrafficCol.traffic] else []) ++
    (if d.hasYellowFlagIndicator then [TrafficCol.yellow] else []) ++
    (if d.hasIsClearLap then [TrafficCol.isClear] else [])
  if availableIndicators.isEmpty then 17/20
  else
    let acc := availableIndicators.foldl (fun (acc : ℚ × ℕ) c =>
      let indicatorData := vl.filterMap fun p => trafficCell c p.2
      if 0 < indicatorData.length then
        let contrib := if c = TrafficCol.isClear then indicatorData.sum
                       else (indicatorData.length : ℚ) - indicatorData.sum
        (acc.1 + contrib, max acc.2 indicatorData.length)
      else acc) (0, 0)
    if 0 < acc.2 then max (3/10) (min 1 (acc.1 / (acc.2 : ℚ)))
    else 17/20

/-! ## SIWTL sector weights -/

/-- The dict built per sector: five sub-scores and the combined weight. -/
structure SectorWeight where
  consistencyScore : ℚ
  smoothnessScore : ℚ
  conditionsScore : ℚ
  temperatureScore : ℚ
  trafficScore : ℚ
  combinedWeight : ℚ
deriving DecidableEq

/-- The method `_default_sector_weight`, returned when a sector has
fewer than 3 valid samples.  The source hard-codes `combined_weight
0.68`. -/
def defaultSectorWeight : SectorWeight :=
  { consistencyScore := 3/5
    smoothnessScore := 3/5
    conditionsScore := 7/10
    temperatureScore := 4/5
    trafficScore := 4/5
    combinedWeight := 17/25 }

/-- The method `_calculate_single_sector_weight` for the sector column
`col` (with original sector-table labels) of sector number
`sectorNum`. -/
def singleSectorWeight (ops : RealOps) (cfg : SiwtlConfig)
    (col : List (ℕ × Option ℚ)) (sectorNum : ℕ) (d : DriverData)
    (vl : List (ℕ × DriverRow)) (td : Option TelemetryData) : SectorWeight :=
  let validTimes := validSectorTimes col
  if validTimes.length < 3 then defaultSectorWeight
  else
    let consistency := consistencyScoreOf ops (validTimes.map (·.2))
    let smoothness := match td with
      | some t => smoothnessScoreOf ops t sectorNum
      | none => 7/10
    let conditions := conditionsScoreOf ops d.hasStintNumber vl validTimes
    let temperature := temperatureScoreOf d vl
    let traffic := trafficScoreOf d vl
    { consistencyScore := consistency
      smoothnessScore := smoothness
      conditionsScore := conditions
      temperatureScore := temperature
      trafficScore := traffic
      combinedWeight :=
        consistency * cfg.consistencyWeight +
        smoothness * cfg.smoothnessWeight +
        conditions * cfg.conditionsWeight +
        temperature * cfg.temperatureWeight +
        traffic * cfg.trafficWeight }

/-- The `sector_weights` dict keyed `s1..s3`; `none` = key absent.  Both
the weights dict and the sector-bests dict are inserted in ascending key
order in the source, so field order is iteration order. -/
structure SectorWeightsMap where
  s1 : Option SectorWeight
  s2 : Option SectorWeight
  s3 : Option SectorWeight
deriving DecidableEq

/-- Key lookup `sector_id in sector_weights`. -/
def SectorWeightsMap.lookup (m : SectorWeightsMap) : ℕ → Option SectorWeight
  | 1 => m.s1
  | 2 => m.s2
  | 3 => m.s3
  | _ => none

/-- The combined weights in dict-iteration order,
`[w['combined_weight'] for w in sector_weights.values()]`. -/
def SectorWeightsMap.combinedList (m : SectorWeightsMap) : List ℚ :=
  ([m.s1, m.s2, m.s3].filterMap id).map (·.combinedWeight)

/-- Emptiness test `if not sector_weights`. -/
def SectorWeightsMap.isEmptyMap (m : SectorWeightsMap) : Bool :=
  m.s1.isNone && m.s2.isNone && m.s3.isNone

/-- The uniform weight set created when no sector data is available:
every sub-score and the combined weight equal `1/3`. -/
def uniformSectorWeight : SectorWeight :=
  { consistencyScore := 1/3, smoothnessScore := 1/3, conditionsScore := 1/3
    temperatureScore := 1/3, trafficScore := 1/3, combinedWeight := 1/3 }

/-- The method `_calculate_sector_weights`: one weight set per sector
column present in the sector table, and the uniform fallback when that
leaves the dict empty (no sector table, empty sector table, or no sector
columns). -/
def calcSectorWeights (ops : RealOps) (cfg : SiwtlConfig)
    (vl : List (ℕ × DriverRow)) (d : DriverData) (sd : Option SectorData)
    (td : Option TelemetryData) : SectorWeightsMap :=
  let base : SectorWeightsMap :=
    match sd with
    | some s =>
      if 0 < s.rows.length then
        { s1 := if s.hasSector1 then
                  some (singleSectorWeight ops cfg (s.colVals 1) 1 d vl td) else none
          s2 := if s.hasSector2 then
                  some (singleSectorWeight ops cfg (s.colVals 2) 2 d vl td) else none
          s3 := if s.hasSector3 then
                  some (singleSectorWeight ops cfg (s.colVals 3) 3 d vl td) else none }
      else ⟨none, none, none⟩
    | none => ⟨none, none, none⟩
  if base.isEmptyMap then ⟨some uniformSectorWeight, some uniformSectorWeight,
                           some uniformSectorWeight⟩
  else base

/-! ## SIWTL theoretical best (`_calculate_theoretical_best`) -/

/-- The `sector_bests` dict keyed `s1..s3`; `none` = key absent. -/
structure SectorBests where
  s1 : Option ℚ
  s2 : Option ℚ
  s3 : Option ℚ
deriving DecidableEq

/-- Entries in dict-iteration order (keys are inserted in ascending
order in the source loop), as `(numeric key, best time)` pairs. -/
def SectorBests.toList (b : SectorBests) : List (ℕ × ℚ) :=
  [b.s1.map (1, ·), b.s2.map (2, ·), b.s3.map (3, ·)].filterMap id

/-- Key count `len(sector_bests)`. -/
def SectorBests.count (b : SectorBests) : ℕ := b.toList.length

/-- Sum of the values, `sum(sector_bests.values())`. -/
def SectorBests.sumVals (b : SectorBests) : ℚ := (b.toList.map (·.2)).sum

/-- Result dict of `_calculate_theoretical_best`. -/
structure TheoBest where
  theoreticalBestLap : ℚ
  sectorBests : SectorBests
  method : String
deriving DecidableEq

/-- Sector columns present in the table, in the order of the source list
`['sector_1_time', 'sector_2_time', 'sector_3_time']`. -/
def availableSectors (s : SectorData) : List ℕ :=
  [1, 2, 3].filter fun k => s.hasCol k

/-- Dict entry `sector_bests['s<key>']`.  The source keys the entry by
the POSITION of the column among the available columns
(`for i, col in enumerate(available_sectors, 1)`), not by the column's
own sector number: `key` here is that position. -/
def bestAtPosition (s : SectorData) (key : ℕ) : Option ℚ :=
  ((availableSectors s).enum.find? fun p => p.1 + 1 = key).bind fun p =>
    let validTimes := validSectorTimes (s.colVals p.2)
    if validTimes.isEmpty then none
    else some (minListQ (validTimes.map (·.2)))

/-- The method `_calculate_theoretical_best`.  In the sector-based branch
`theoretical_best_ms = sum(...) * 1000` is divided back by `1000.0`; over
`ℚ` the two cancel exactly. -/
def theoreticalBest (vl : List (ℕ × DriverRow)) (sd : Option SectorData) : TheoBest :=
  let fallback : TheoBest :=
    { theoreticalBestLap := minListQ (vl.map lapMs) / 1000
      sectorBests := ⟨none, none, none⟩
      method := "lap_based" }
  match sd with
  | none => fallback
  | some s =>
    if 0 < s.rows.length then
      if 2 ≤ (availableSectors s).length then
        let bests : SectorBests :=
          ⟨bestAtPosition s 1, bestAtPosition s 2, bestAtPosition s 3⟩
        if 2 ≤ bests.count then
          { theoreticalBestLap := bests.sumVals * 1000 / 1000
            sectorBests := bests
            method := "sector_based" }
        else fallback
      else fallback
    else fallback

/-! ## SIWTL composer (`_compute_siwtl`) and top-level entry point -/

/-- One entry of the `sector_analysis` dict. -/
structure SectorAnalysisEntry where
  bestTime : ℚ
  achievabilityWeight : ℚ
  realisticTime : ℚ
deriving DecidableEq

/-- The result dict of the calculator.  The full-computation shape and
the insufficient-data shape carry different keys; an absent key is
`none`.  `errorMsg` is the `error` key of the insufficient-data dict. -/
structure SiwtlOutput where
  siwtlLap : Option ℚ
  theoreticalBestLap : Option ℚ
  currentAvgLap : Option ℚ
  potentialGainSec : Option ℚ
  achievabilityScore : Option ℚ
  sectorAnalysis : Option (List (ℕ × SectorAnalysisEntry))
  sectorWeights : Option SectorWeightsMap
  confidenceLevel : String
  errorMsg : Option String
  algorithm : String
  totalLapsAnalyzed : Option ℕ
  calculationTimestamp : Option String
  achievabilityFactors : Option SiwtlConfig
deriving DecidableEq

/-- The method `_calculate_confidence_level`; `len(sector_weights)` is
the key count of the weights dict. -/
def confidenceLevelOf (numLaps : ℕ) (m : SectorWeightsMap) : String :=
  let weightCount := ([m.s1, m.s2, m.s3].filterMap id).length
  if 30 ≤ numLaps ∧ 2 ≤ weightCount then "High"
  else if 15 ≤ numLaps then "Medium"
  else "Low"

/-- The method `_compute_siwtl`.  In the sector-based branch a best time
whose dict key is missing from the weights dict contributes nothing to
`total_weighted_time`. -/
def computeSiwtl (tb : TheoBest) (m : SectorWeightsMap)
    (vl : List (ℕ × DriverRow)) : SiwtlOutput :=
  let theoreticalLap := tb.theoreticalBestLap
  let sectorContribs : List (ℕ × SectorAnalysisEntry) :=
    tb.sectorBests.toList.filterMap fun p =>
      (m.lookup p.1).map fun w =>
        (p.1, { bestTime := p.2
                achievabilityWeight := w.combinedWeight
                realisticTime := p.2 / max w.combinedWeight (1/10) })
  let siwtlLap : ℚ :=
    if tb.sectorBests.count ≠ 0 then
      (sectorContribs.map (·.2.realisticTime)).sum
    else
      let avgWeight := if m.isEmptyMap then 3/4 else mean m.combinedList
      theoreticalLap / max avgWeight (1/10)
  let siwtlSectors : List (ℕ × SectorAnalysisEntry) :=
    if tb.sectorBests.count ≠ 0 then sectorContribs else []
  let currentAvgLap := mean (vl.map lapMs) / 1000
  { siwtlLap := some siwtlLap
    theoreticalBestLap := some theoreticalLap
    currentAvgLap := some currentAvgLap
    potentialGainSec := some (currentAvgLap - siwtlLap)
    achievabilityScore := some (min 1 (theoreticalLap / siwtlLap))
    sectorAnalysis := some siwtlSectors
    sectorWeights := some m
    confidenceLevel := confidenceLevelOf vl.length m
    errorMsg := none
    algorithm := ""
    totalLapsAnalyzed := none
    calculationTimestamp := none
    achievabilityFactors := none }

/-- The method `_create_insufficient_data_result`: all four numeric
fields are null, no other numeric key is present.  The Python `repr`
quoting inside the message is elided. -/
def insufficientDataResult : SiwtlOutput :=
  { siwtlLap := none
    theoreticalBestLap := none
    currentAvgLap := none
    potentialGainSec := none
    achievabilityScore := none
    sectorAnalysis := none
    sectorWeights := none
    confidenceLevel := "None"
    errorMsg := some "Insufficient valid lap data for SIWTL calculation"
    algorithm := "SIWTL v2.0 - Smart Weighted Ideal Lap"
    totalLapsAnalyzed := none
    calculationTimestamp := none
    achievabilityFactors := none }

/-- The metadata `siwtl_result.update({...})` appended by
`calculate_siwtl` to a full computation; `now` is
`pd.Timestamp.now().isoformat()`. -/
def addMetadata (cfg : SiwtlConfig) (now : String) (numLaps : ℕ)
    (r : SiwtlOutput) : SiwtlOutput :=
  { r with
    algorithm := "SIWTL v2.0 - Smart Weighted Ideal Lap"
    totalLapsAnalyzed := some numLaps
    calculationTimestamp := some now
    achievabilityFactors := some cfg }

/-- The method `calculate_siwtl`: raises `ValueError` when a required
column is missing, short-circuits below 5 valid laps, otherwise composes
the full result (Python `repr` quoting inside the error message is
elided). -/
def calculateSiwtl (ops : RealOps) (cfg : SiwtlConfig) (now : String)
    (d : DriverData) (sd : Option SectorData) (td : Option TelemetryData) :
    Except String SiwtlOutput :=
  if ¬(d.hasLapNumber = true ∧ d.hasLapTimeMs = true) then
    .error "Driver data must contain: [lap_number, lap_time_ms]"
  else
    let vl := validLaps d
    if vl.length < 5 then .ok insufficientDataResult
    else
      let tb := theoreticalBest vl sd
      let m := calcSectorWeights ops cfg vl d sd td
      .ok (addMetadata cfg now vl.length (computeSiwtl tb m vl))

/-- Projection to the `SIWTLResult` entity of the specification data
model: `{theoretical_best_lap, siwtl_lap, current_avg_lap,
potential_gain_sec, achievability_score, sector_analysis,
confidence_level}`. -/
def siwtlResultProj (r : SiwtlOutput) :
    Option ℚ × Option ℚ × Option ℚ × Option ℚ × Option ℚ ×
    Option (List (ℕ × SectorAnalysisEntry)) × String :=
  (r.theoreticalBestLap, r.siwtlLap, r.currentAvgLap, r.potentialGainSec,
   r.achievabilityScore, r.sectorAnalysis, r.confidenceLevel)

/-! ## Module-level singleton getters (`get_dptad_detector`,
`get_siwtl_calculator`)

Both getters are the unguarded pattern

```python
global _x
if _x is None:
    _x = C()
return _x
```

modelled as a two-thread interleaving at CPython bytecode granularity:
each step (read the global, test, run the constructor, store the global,
re-read the global for `return`) is atomic under the interpreter lock,
but a thread switch may occur between any two steps.  Constructed
instances receive fresh identifiers by numbering constructor runs, so
`ctorCount` counts how often the constructor ran and the return values
show which instance each caller received. -/

/-- Program counter of one caller of the getter. -/
inductive GetterPc
  | readGlobal
  | testNone
  | runCtor
  | storeGlobal
  | returnGlobal
  | done
deriving DecidableEq

/-- Local state of one caller. -/
structure GetterThread where
  pc : GetterPc
  readValue : Option ℕ
  madeValue : Option ℕ
  retValue : Option ℕ
deriving DecidableEq

/-- Shared state: the module global `_x` (`none` = Python `None`), the
number of constructor runs, and the two callers. -/
structure GetterState where
  globalVar : Option ℕ
  ctorCount : ℕ
  t1 : GetterThread
  t2 : GetterThread
deriving DecidableEq

/-- A caller that has not started: about to read the global. -/
def freshThread : GetterThread := ⟨.readGlobal, none, none, none⟩

/-- Initial state: global unset, constructor never run. -/
def initGetterState : GetterState := ⟨none, 0, freshThread, freshThread⟩

/-- One atomic step of one caller against the shared state; `done`
threads do not move. -/
def getterStep (t : GetterThread) (g : Option ℕ) (count : ℕ) :
    GetterThread × Option ℕ × ℕ :=
  match t.pc with
  | .readGlobal => ({ t with pc := .testNone, readValue := g }, g, count)
  | .testNone =>
      ({ t with pc := if t.readValue.isNone then .runCtor else .returnGlobal },
       g, count)
  | .runCtor => ({ t with pc := .storeGlobal, madeValue := some (count + 1) },
                 g, count + 1)
  | .storeGlobal => ({ t with pc := .returnGlobal }, t.madeValue, count)
  | .returnGlobal => ({ t with pc := .done, retValue := g }, g, count)
  | .done => (t, g, count)

/-- Run a schedule: `true` steps caller 1, `false` steps caller 2. -/
def runSchedule (sched : List Bool) : GetterState :=
  sched.foldl (fun s choice =>
    if choice then
      let r := getterStep s.t1 s.globalVar s.ctorCount
      { s with t1 := r.1, globalVar := r.2.1, ctorCount := r.2.2 }
    else
      let r := getterStep s.t2 s.globalVar s.ctorCount
      { s with t2 := r.1, globalVar := r.2.1, ctorCount := r.2.2 })
    initGetterState

/-- Caller 1 runs to completion before caller 2 starts. -/
def sequentialSchedule : List Bool :=
  [true, true, true, true, true, false, false, false, false, false]

/-- Both callers read the unset global before either constructs: caller 2
then completes, and caller 1 overwrites its instance. -/
def racingSchedule : List Bool :=
  [true, false, false, false, false, false, true, true, true, true]

/-! ## Concrete tables used by witnesses and counterexamples -/

/-- A lap row with every optional column empty. -/
def blankRow : DriverRow := ⟨none, none, none, none, none, none, none, none⟩

/-- A lap row holding only a lap time. -/
def lapRow (t : ℚ) : DriverRow := { blankRow with lapTimeMs := some t }

/-- A lap table holding only the two required columns. -/
def lapTable (ts : List ℚ) : DriverData :=
  { hasLapNumber := true, hasLapTimeMs := true, hasStintNumber := false
    hasAirTemp := false, hasTrackTemp := false, hasTempDeltaFromStart := false
    hasTrafficIndicator := false, hasYellowFlagIndicator := false
    hasIsClearLap := false, rows := ts.map lapRow }

/-- Five valid laps of 150000 ms. -/
def exDriver5 : DriverData := lapTable [150000, 150000, 150000, 150000, 150000]

/-- Exactly four valid laps — one below the minimum of five. -/
def exDriver4 : DriverData := lapTable [150000, 150000, 150000, 150000]

/-- A lap table whose required column `lap_time_ms` is missing. -/
def exDriverMissingColumn : DriverData :=
  { lapTable [] with hasLapTimeMs := false }

/-- A sector table that lacks `sector_1_time` but has one row of valid
`sector_2_time` and `sector_3_time` values. -/
def exSectorNoS1 : SectorData :=
  { hasSector1 := false, hasSector2 := true, hasSector3 := true
    rows := [⟨none, some 30, some 30⟩] }

/-- A sector column with three valid samples (labels 0–2). -/
def exSectorCol3 : List (ℕ × Option ℚ) :=
  [(0, some 30), (1, some 31), (2, some 32)]

/-- A slow-path candidate used by concrete checks. -/
def exSlow : SlowCand := ⟨100, 4, "speed", 2⟩

/-- A fast-path candidate used by concrete checks. -/
def exFast : FastCand := ⟨100, 6, "speed", 9, "lock_up"⟩

/-- A reconciled anomaly used by concrete checks. -/
def exRec : Reconciled :=
  ⟨100, "driver_mistake", 6, "speed", "Driver mistake: lock_up",
   some exFast, none, getRecommendation "driver_mistake" "speed"⟩

/-! ## Helper lemmas -/

/-- The accumulator bounds a `foldl min` from below. -/
theorem le_foldl_min (c : ℚ) (xs : List ℚ) :
    ∀ a : ℚ, c ≤ a → (∀ x ∈ xs, c ≤ x) → c ≤ xs.foldl min a := by
  induction xs with
  | nil => intro a ha _; simpa using ha
  | cons x xs ih =>
    intro a ha h
    simp only [List.foldl_cons]
    exact ih (min a x) (le_min ha (h x (by simp)))
      fun y hy => h y (List.mem_cons_of_mem _ hy)

/-- A common lower bound of a nonempty list bounds `minListQ`. -/
theorem le_minListQ (c : ℚ) (xs : List ℚ) (hne : xs ≠ [])
    (h : ∀ x ∈ xs, c ≤ x) : c ≤ minListQ xs := by
  match xs, hne with
  | x :: rest, _ =>
    exact le_foldl_min c rest x (h x (by simp))
      fun y hy => h y (List.mem_cons_of_mem _ hy)

/-- The accumulator bounds a `foldl max` from above. -/
theorem foldl_max_le (c : ℚ) (xs : List ℚ) :
    ∀ a : ℚ, a ≤ c → (∀ x ∈ xs, x ≤ c) → xs.foldl max a ≤ c := by
  induction xs with
  | nil => intro a ha _; simpa using ha
  | cons x xs ih =>
    intro a ha h
    simp only [List.foldl_cons]
    exact ih (max a x) (max_le ha (h x (by simp)))
      fun y hy => h y (List.mem_cons_of_mem _ hy)

/-- A common upper bound of a nonempty list bounds `maxListQ`. -/
theorem maxListQ_le (c : ℚ) (xs : List ℚ) (hne : xs ≠ [])
    (h : ∀ x ∈ xs, x ≤ c) : maxListQ xs ≤ c := by
  match xs, hne with
  | x :: rest, _ =>
    exact foldl_max_le c rest x (h x (by simp))
      fun y hy => h y (List.mem_cons_of_mem _ hy)

/-- The accumulator of `foldl max` only grows. -/
theorem foldl_max_mono (xs : List ℚ) :
    ∀ a b : ℚ, b ≤ a → b ≤ xs.foldl max a := by
  induction xs with
  | nil => intro a b h; simpa using h
  | cons x xs ih =>
    intro a b h
    simp only [List.foldl_cons]
    exact ih (max a x) b (h.trans (le_max_left a x))

/-- A common lower bound of a nonempty list bounds `maxListQ` below. -/
theorem le_maxListQ (c : ℚ) (xs : List ℚ) (hne : xs ≠ [])
    (h : ∀ x ∈ xs, c ≤ x) : c ≤ maxListQ xs := by
  match xs, hne with
  | x :: rest, _ => exact foldl_max_mono rest x c (h x (by simp))

/-- Guarded `filterMap` is `filter` followed by `map`. -/
theorem filterMap_guard {α β : Type} (p : α → Bool) (g : α → β) (l : List α) :
    (l.filterMap fun a => if p a then some (g a) else none)
      = (l.filter p).map g := by
  induction l with
  | nil => rfl
  | cons x xs ih =>
    by_cases hx : p x <;> simp [List.filterMap_cons, List.filter_cons, hx, ih]

/-- Every valid lap time is at least 120000 ms. -/
theorem validLaps_ge (d : DriverData) :
    ∀ p ∈ validLaps d, (120000 : ℚ) ≤ lapMs p := by
  intro p hp
  have hmem := List.of_mem_filter hp
  cases hlt : p.2.lapTimeMs with
  | none => rw [hlt] at hmem; simp at hmem
  | some t =>
    rw [hlt] at hmem
    simp only [decide_eq_true_eq] at hmem
    simp [lapMs, hlt, hmem.1]

/-! ## Claims C10, C5, C4, C1, C2, C8 -/

/-- Claim C10, counterexample: the unguarded check-then-create getters
admit an interleaving of two first callers in which both read the unset
global, the constructor runs twice, and the callers return distinct
instances — refuting construction-exactly-once under concurrent first
access. -/
theorem racing_first_access_constructs_twice :
    (runSchedule racingSchedule).ctorCount = 2 ∧
    (runSchedule racingSchedule).t1.retValue = some 2 ∧
    (runSchedule racingSchedule).t2.retValue = some 1 ∧
    (runSchedule racingSchedule).t1.retValue ≠
      (runSchedule racingSchedule).t2.retValue := by
  decide

/-- Claim C10 (amended): the getters are the unguarded check-then-create
pattern; when the two first calls do not interleave, the instance is
constructed exactly once and both callers receive it, but concurrent
first access can run the constructor twice and hand out distinct
instances. -/
theorem sequential_first_access_constructs_once :
    (runSchedule sequentialSchedule).ctorCount = 1 ∧
    (runSchedule sequentialSchedule).t1.retValue = some 1 ∧
    (runSchedule sequentialSchedule).t2.retValue = some 1 := by
  decide

/-- Claim C5: both engines are deterministic functions of their input
tables, configuration, and filter stages — the anomaly list, the anomaly
summary, and the `SIWTLResult` projection (theoretical best, SIWTL lap,
current average, potential gain, achievability, sector analysis,
confidence) are unchanged across invocations at different wall-clock
instants; only the timestamp metadata reads the clock. -/
theorem engines_deterministic (ops : RealOps) (cfg : DptadConfig)
    (fslow ffast : List ℚ → Option (List ℚ)) (tel : Option DpTelemetry)
    (vid now₁ now₂ : String) (scfg : SiwtlConfig) (d : DriverData)
    (sd : Option SectorData) (td : Option TelemetryData) :
    (analyzeDriverAnomalies ops cfg fslow ffast now₁ vid tel).anomalies
      = (analyzeDriverAnomalies ops cfg fslow ffast now₂ vid tel).anomalies ∧
    (analyzeDriverAnomalies ops cfg fslow ffast now₁ vid tel).summary
      = (analyzeDriverAnomalies ops cfg fslow ffast now₂ vid tel).summary ∧
    (calculateSiwtl ops scfg now₁ d sd td).map siwtlResultProj
      = (calculateSiwtl ops scfg now₂ d sd td).map siwtlResultProj := by
  refine ⟨rfl, rfl, ?_⟩
  simp only [calculateSiwtl]
  split_ifs <;> rfl

/-- Claim C4, counterexample: the default weight set returned for a
sector with fewer than 3 valid samples hard-codes `combined_weight`
0.68, while the weighted sum of its five sub-scores under the default
factor weights is 0.67. -/
theorem default_weight_breaks_weighted_sum :
    defaultSectorWeight.combinedWeight = 17/25 ∧
    defaultSectorWeight.consistencyScore * defaultSiwtlConfig.consistencyWeight +
      defaultSectorWeight.smoothnessScore * defaultSiwtlConfig.smoothnessWeight +
      defaultSectorWeight.conditionsScore * defaultSiwtlConfig.conditionsWeight +
      defaultSectorWeight.temperatureScore * defaultSiwtlConfig.temperatureWeight +
      defaultSectorWeight.trafficScore * defaultSiwtlConfig.trafficWeight = 67/100 ∧
    defaultSectorWeight.combinedWeight ≠
      defaultSectorWeight.consistencyScore * defaultSiwtlConfig.consistencyWeight +
      defaultSectorWeight.smoothnessScore * defaultSiwtlConfig.smoothnessWeight +
      defaultSectorWeight.conditionsScore * defaultSiwtlConfig.conditionsWeight +
      defaultSectorWeight.temperatureScore * defaultSiwtlConfig.temperatureWeight +
      defaultSectorWeight.trafficScore * defaultSiwtlConfig.trafficWeight := by
  refine ⟨rfl, by norm_num [defaultSectorWeight, defaultSiwtlConfig], ?_⟩
  norm_num [defaultSectorWeight, defaultSiwtlConfig]

/-- Claim C4 (amended): every sector weight computed from at least 3
valid sector samples has `combined_weight` equal to the weighted sum of
its five sub-scores under the configured factor weights; only the
default weight set for a data-poor sector hard-codes a combined weight
(0.68) that differs from that sum (0.67 under default factors). -/
theorem sector_weight_combined_is_weighted_sum (ops : RealOps)
    (cfg : SiwtlConfig) (col : List (ℕ × Option ℚ)) (sectorNum : ℕ)
    (d : DriverData) (vl : List (ℕ × DriverRow)) (td : Option TelemetryData)
    (h : 3 ≤ (validSectorTimes col).length) :
    (singleSectorWeight ops cfg col sectorNum d vl td).combinedWeight =
      (singleSectorWeight ops cfg col sectorNum d vl td).consistencyScore *
        cfg.consistencyWeight +
      (singleSectorWeight ops cfg col sectorNum d vl td).smoothnessScore *
        cfg.smoothnessWeight +
      (singleSectorWeight ops cfg col sectorNum d vl td).conditionsScore *
        cfg.conditionsWeight +
      (singleSectorWeight ops cfg col sectorNum d vl td).temperatureScore *
        cfg.temperatureWeight +
      (singleSectorWeight ops cfg col sectorNum d vl td).trafficScore *
        cfg.trafficWeight := by
  unfold singleSectorWeight
  rw [if_neg (by omega)]

/-- Witness for the amended claim C4 at a sector column with three valid
samples. -/
theorem sector_weight_combined_witness :
    3 ≤ (validSectorTimes exSectorCol3).length ∧
    (singleSectorWeight zeroOps defaultSiwtlConfig exSectorCol3 1
        (lapTable []) [] none).combinedWeight =
      (singleSectorWeight zeroOps defaultSiwtlConfig exSectorCol3 1
        (lapTable []) [] none).consistencyScore *
        defaultSiwtlConfig.consistencyWeight +
      (singleSectorWeight zeroOps defaultSiwtlConfig exSectorCol3 1
        (lapTable []) [] none).smoothnessScore *
        defaultSiwtlConfig.smoothnessWeight +
      (singleSectorWeight zeroOps defaultSiwtlConfig exSectorCol3 1
        (lapTable []) [] none).conditionsScore *
        defaultSiwtlConfig.conditionsWeight +
      (singleSectorWeight zeroOps defaultSiwtlConfig exSectorCol3 1
        (lapTable []) [] none).temperatureScore *
        defaultSiwtlConfig.temperatureWeight +
      (singleSectorWeight zeroOps defaultSiwtlConfig exSectorCol3 1
        (lapTable []) [] none).trafficScore *
        defaultSiwtlConfig.trafficWeight :=
  ⟨by decide,
   sector_weight_combined_is_weighted_sum zeroOps defaultSiwtlConfig
     exSectorCol3 1 (lapTable []) [] none (by decide)⟩

/-- Claim C1, counterexample: a lap table missing the required
`lap_time_ms` column makes `calculate_siwtl` raise `ValueError` — the
exception does propagate to the caller, refuting the blanket
never-raises reading. -/
theorem missing_required_column_raises :
    calculateSiwtl zeroOps defaultSiwtlConfig "t" exDriverMissingColumn
      none none =
      .error "Driver data must contain: [lap_number, lap_time_ms]" := by
  rfl

/-- Claim C1 (amended): for every input containing the required columns
`lap_number` and `lap_time_ms`, `calculate_siwtl` returns a result and
never raises; with exactly 4 valid laps it returns the explicit
insufficient-data result, whose four numeric fields are all null.  An
input missing a required column instead raises `ValueError` by explicit
validation. -/
theorem siwtl_no_raise_with_required_columns (ops : RealOps)
    (cfg : SiwtlConfig) (now : String) (d : DriverData)
    (sd : Option SectorData) (td : Option TelemetryData)
    (h1 : d.hasLapNumber = true) (h2 : d.hasLapTimeMs = true) :
    (∃ r, calculateSiwtl ops cfg now d sd td = .ok r) ∧
    ((validLaps d).length = 4 →
      calculateSiwtl ops cfg now d sd td = .ok insufficientDataResult) ∧
    insufficientDataResult.siwtlLap = none ∧
    insufficientDataResult.theoreticalBestLap = none ∧
    insufficientDataResult.potentialGainSec = none ∧
    insufficientDataResult.achievabilityScore = none := by
  have hreq : ¬¬(d.hasLapNumber = true ∧ d.hasLapTimeMs = true) := by
    simp [h1, h2]
  refine ⟨?_, ?_, rfl, rfl, rfl, rfl⟩
  · simp only [calculateSiwtl, if_neg hreq]
    split_ifs <;> exact ⟨_, rfl⟩
  · intro h4
    simp only [calculateSiwtl, if_neg hreq]
    rw [if_pos (by omega)]

/-- Witness for the amended claim C1 at a table with exactly 4 valid
laps. -/
theorem siwtl_no_raise_witness :
    exDriver4.hasLapNumber = true ∧ exDriver4.hasLapTimeMs = true ∧
    (validLaps exDriver4).length = 4 ∧
    calculateSiwtl zeroOps defaultSiwtlConfig "t" exDriver4 none none =
      .ok insufficientDataResult :=
  ⟨rfl, rfl, by decide,
   (siwtl_no_raise_with_required_columns zeroOps defaultSiwtlConfig "t"
     exDriver4 none none rfl rfl).2.1 (by decide)⟩

/-- Claim C2: evaluation of the code at the failing input.  The sector
table lacks `sector_1_time`; the theoretical-best step keys the best of
`sector_2_time` as `s1` (by position among available columns) while the
weights dict keys its weight as `s2` (by true sector number), so the
`s1` best is dropped from the weighted sum: `siwtl_lap = 30 / 0.68 =
750/17 < 60 = theoretical_best_lap` although every applied weight
(`0.68`) is at most 1 — refuting `siwtl_lap ≥ theoretical_best_lap`. -/
theorem siwtl_below_theoretical_on_misaligned_sectors :
    (calculateSiwtl zeroOps defaultSiwtlConfig "t" exDriver5
        (some exSectorNoS1) none).map
        (fun r => (r.siwtlLap, r.theoreticalBestLap)) =
      .ok (some (750/17), some 60) ∧
    ((750 : ℚ)/17 < 60) ∧
    ((calcSectorWeights zeroOps defaultSiwtlConfig (validLaps exDriver5)
        exDriver5 (some exSectorNoS1) none).combinedList.all
      fun w => decide (w ≤ 1)) = true := by
  refine ⟨by rfl, by norm_num, by rfl⟩

/-- Claim C2, aligned-case complement: at the `_compute_siwtl` boundary,
whenever every sector best has a weight under the same key and all those
weights are at most 1 (each at least the floor 0.1 to match the guard),
the realistic time of each sector is at least its best time. -/
theorem realistic_time_ge_best (w best : ℚ) (hw : w ≤ 1) (hb : 0 < best) :
    best ≤ best / max w (1/10) := by
  have hmax : 0 < max w (1/10) := lt_max_of_lt_right (by norm_num)
  rw [le_div_iff₀ hmax]
  nlinarith [le_max_left w (1/10 : ℚ), max_le hw (by norm_num : (1/10 : ℚ) ≤ 1)]

/-- Claim C8, counterexample: for the empty anomaly list the summary
dict carries neither a `severity_max` nor a `high_severity_count` key,
refuting the claim that every summary contains them. -/
theorem empty_summary_lacks_max_and_high_count :
    (getAnomalySummary []).severityMax = none ∧
    (getAnomalySummary []).highSeverityCount = none := by
  decide

/-- Claim C8 (amended): for every nonempty anomaly list the summary
contains the total count, mean severity, max severity,
`high_severity_count` = number of anomalies of severity strictly above
5.0, the distinct signals in order of first appearance, and a
recommendation; for the empty list it reports zero count, zero mean
severity, and the fixed no-anomalies message, omitting the max-severity
and high-count keys. -/
theorem summary_fields (l : List Reconciled) (h : l ≠ []) :
    (getAnomalySummary l).totalAnomalies = l.length ∧
    (getAnomalySummary l).severityAvg = mean (l.map (·.severity)) ∧
    (getAnomalySummary l).severityMax = some (maxListQ (l.map (·.severity))) ∧
    (getAnomalySummary l).highSeverityCount =
      some ((l.filter fun a => decide ((5 : ℚ) < a.severity)).length) ∧
    (getAnomalySummary l).signalsAffected = uniqueFirst (l.map (·.signal)) ∧
    (getAnomalySummary l).recommendation = generateSummaryRecommendation l ∧
    getAnomalySummary [] =
      ⟨0, 0, none, [], [], none,
       "No anomalies detected. Performance is consistent."⟩ := by
  have hlen : ¬l.length = 0 := by
    cases l with
    | nil => exact absurd rfl h
    | cons x xs => simp
  rw [getAnomalySummary, if_neg hlen]
  exact ⟨rfl, rfl, rfl, rfl, rfl, rfl, rfl⟩

/-- Witness for the amended claim C8 at a one-element anomaly list. -/
theorem summary_fields_witness :
    ([exRec] : List Reconciled) ≠ [] ∧
    ((getAnomalySummary [exRec]).totalAnomalies = [exRec].length ∧
     (getAnomalySummary [exRec]).severityAvg = mean ([exRec].map (·.severity)) ∧
     (getAnomalySummary [exRec]).severityMax =
       some (maxListQ ([exRec].map (·.severity))) ∧
     (getAnomalySummary [exRec]).highSeverityCount =
       some (([exRec].filter fun a => decide ((5 : ℚ) < a.severity)).length) ∧
     (getAnomalySummary [exRec]).signalsAffected =
       uniqueFirst ([exRec].map (·.signal)) ∧
     (getAnomalySummary [exRec]).recommendation =
       generateSummaryRecommendation [exRec] ∧
     getAnomalySummary [] =
       ⟨0, 0, none, [], [], none,
        "No anomalies detected. Performance is consistent."⟩) :=
  ⟨by simp, summary_fields [exRec] (by simp)⟩

/-! ## Claim C3: severity bounds -/

/-- Every slow-path drift candidate has severity within `[0, 10]`. -/
theorem slowPath_severity (ops : RealOps) (cfg : DptadConfig) (ts : ℕ → ℚ)
    (xs : List ℚ) (sig : String) (h1 : 0 ≤ ops.popStd xs)
    (h2 : 0 ≤ cfg.driftThreshold) :
    ∀ c ∈ slowPathAnalysis ops cfg ts xs sig,
      0 ≤ c.severity ∧ c.severity ≤ 10 := by
  intro c hc
  have hτ : 0 ≤ ops.popStd xs * cfg.driftThreshold := mul_nonneg h1 h2
  simp only [slowPathAnalysis] at hc
  split_ifs at hc with hw
  · simp at hc
  · rw [List.mem_filterMap] at hc
    obtain ⟨i, _, hf⟩ := hc
    split_ifs at hf with hv hcond
    · obtain rfl := Option.some.inj hf
      exact ⟨le_min (div_nonneg (abs_nonneg _) hτ) (by norm_num),
             min_le_right _ _⟩

/-- Every fast-path spike candidate has severity within `[0, 10]`. -/
theorem fastPath_severity (ops : RealOps) (cfg : DptadConfig) (ts : ℕ → ℚ)
    (ys : List ℚ) (sig : String) (raw : ℕ → ℚ) (h1 : 0 ≤ ops.popStd ys)
    (h2 : 0 ≤ cfg.spikeThreshold) :
    ∀ c ∈ fastPathAnalysis ops cfg ts ys sig raw,
      0 ≤ c.severity ∧ c.severity ≤ 10 := by
  intro c hc
  have hτ : 0 ≤ ops.popStd ys * cfg.spikeThreshold := mul_nonneg h1 h2
  simp only [fastPathAnalysis] at hc
  rw [List.mem_map] at hc
  obtain ⟨g, _, rfl⟩ := hc
  exact ⟨le_min (div_nonneg (abs_nonneg _) hτ) (by norm_num),
         min_le_right _ _⟩

/-- Reconciliation preserves the severity bound: compound severities are
maxima of bounded candidate severities. -/
theorem reconcile_severity (slow : List SlowCand) (fast : List FastCand)
    (sig : String)
    (hs : ∀ s ∈ slow, 0 ≤ SlowCand.severity s ∧ SlowCand.severity s ≤ 10)
    (hf : ∀ f ∈ fast, 0 ≤ FastCand.severity f ∧ FastCand.severity f ≤ 10) :
    ∀ r ∈ reconcilePaths slow fast sig,
      0 ≤ r.severity ∧ r.severity ≤ 10 := by
  intro r hr
  simp only [reconcilePaths] at hr
  rw [List.mem_append] at hr
  rcases hr with hr | hr
  · rw [List.mem_map] at hr
    obtain ⟨f, hfm, rfl⟩ := hr
    rw [reconcileFast]
    split_ifs with hemp
    · exact hf f hfm
    · have hne : slow.filter
          (fun s => decide (|s.timestamp - f.timestamp| ≤ 10)) ≠ [] := by
        simpa [List.isEmpty_iff] using hemp
      refine ⟨le_trans (hf f hfm).1 (le_max_left _ _),
              max_le (hf f hfm).2 ?_⟩
      refine maxListQ_le 10 _ (by simpa using hne) ?_
      intro x hx
      rw [List.mem_map] at hx
      obtain ⟨s, hsm, rfl⟩ := hx
      exact (hs s (List.mem_of_mem_filter hsm)).2
  · rw [List.mem_filterMap] at hr
    obtain ⟨s, hsm, hsome⟩ := hr
    split_ifs at hsome with hcond
    · obtain rfl := Option.some.inj hsome
      exact hs s hsm

/-- Claim C3: every anomaly produced by the engine — slow-path drift
candidates, fast-path spike candidates, reconciled anomalies, and the
output of the full `detect_anomalies` pipeline — has severity within
`[0, 10]`, given that the standard-deviation oracle is nonnegative (as
every real standard deviation is) and the configured thresholds are
nonnegative (as the defaults 3.0 and 0.15 are). -/
theorem severities_within_range (ops : RealOps) (cfg : DptadConfig)
    (ts : ℕ → ℚ) (hpop : ∀ l, 0 ≤ ops.popStd l)
    (hdrift : 0 ≤ cfg.driftThreshold) (hspike : 0 ≤ cfg.spikeThreshold) :
    (∀ xs sig, ∀ c ∈ slowPathAnalysis ops cfg ts xs sig,
       0 ≤ c.severity ∧ c.severity ≤ 10) ∧
    (∀ ys sig raw, ∀ c ∈ fastPathAnalysis ops cfg ts ys sig raw,
       0 ≤ c.severity ∧ c.severity ≤ 10) ∧
    (∀ slow fast sig,
       (∀ s ∈ slow, 0 ≤ SlowCand.severity s ∧ SlowCand.severity s ≤ 10) →
       (∀ f ∈ fast, 0 ≤ FastCand.severity f ∧ FastCand.severity f ≤ 10) →
       ∀ r ∈ reconcilePaths slow fast sig,
         0 ≤ r.severity ∧ r.severity ≤ 10) ∧
    (∀ fslow ffast tel signals,
       ∀ r ∈ detectAnomalies ops cfg fslow ffast tel signals,
         0 ≤ r.severity ∧ r.severity ≤ 10) := by
  refine ⟨fun xs sig => slowPath_severity ops cfg ts xs sig (hpop xs) hdrift,
          fun ys sig raw =>
            fastPath_severity ops cfg ts ys sig raw (hpop ys) hspike,
          fun slow fast sig hs hf => reconcile_severity slow fast sig hs hf,
          ?_⟩
  intro fslow ffast tel signals r hr
  rcases tel with _ | t
  · simp [detectAnomalies] at hr
  · simp only [detectAnomalies] at hr
    split_ifs at hr with hn
    · simp at hr
    · rw [sortBySeverityDesc, List.mem_mergeSort, List.mem_flatMap] at hr
      obtain ⟨sig, _, hr⟩ := hr
      simp only [analyzeSignal] at hr
      rcases hcol : t.col sig with _ | data <;> rw [hcol] at hr
      · simp at hr
      · refine reconcile_severity _ _ sig ?_ ?_ r hr
        · cases hfs : fslow data with
          | none => simp
          | some filtered =>
            exact slowPath_severity ops cfg t.ts filtered sig
              (hpop filtered) hdrift
        · cases hff : ffast data with
          | none => simp
          | some filtered =>
            exact fastPath_severity ops cfg t.ts filtered sig (sigAt data)
              (hpop filtered) hspike

/-! ## Claim C7: drift detector versus its specification -/

/-- The drift detector as the specification describes it: a centered
rolling mean of window size `min(len/10, 50)` (the stated minimum of 5
is enforced by skipping the slow path entirely whenever that size is
below 5); at each interior index, the mean of the preceding window of
the rolling-mean series is compared with the mean of the following
window, an event is flagged when their absolute difference exceeds
`stdev(slow signal) × drift_threshold`, and its severity is
`clip(|difference| / threshold, max 10)`. -/
def driftDetectorSpec (ops : RealOps) (cfg : DptadConfig) (ts : ℕ → ℚ)
    (xs : List ℚ) (sig : String) : List SlowCand :=
  let n := xs.length
  let w := windowSize n
  if w < 5 then []
  else
    let threshold := ops.popStd xs * cfg.driftThreshold
    (List.range' w (n - 2 * w)).filterMap fun i =>
      let precedingMean := trendMean xs w (i - w)
      let followingMean := trendMean xs w i
      let difference := followingMean - precedingMean
      if decide (threshold < |difference|) then
        some { timestamp := ts i
               severity := min (|difference| / threshold) 10
               signal := sig
               driftMagnitude := difference }
      else none

/-- At every interior index of the slow-path loop the centered rolling
mean is defined, so the `notna` guard of the source never rejects an
index. -/
theorem rollingMean_isSome_interior (xs : List ℚ) (w i : ℕ) (hw : 5 ≤ w)
    (hmem : i ∈ List.range' w (xs.length - 2 * w)) :
    (rollingMean xs w i).isSome = true := by
  rw [List.mem_range'_1] at hmem
  rw [rollingMean, if_pos]
  · rfl
  · omega

/-- Claim C7: the slow path of the detector computes exactly the drift
detection that the specification describes — window size
`min(len/10, 50)`, full skip below 5, rolling-mean comparison against
`stdev × drift_threshold`, severity `clip(|difference|/threshold, 10)`. -/
theorem drift_detector_matches_spec (ops : RealOps) (cfg : DptadConfig)
    (ts : ℕ → ℚ) (xs : List ℚ) (sig : String) :
    slowPathAnalysis ops cfg ts xs sig = driftDetectorSpec ops cfg ts xs sig ∧
    (windowSize xs.length < 5 → slowPathAnalysis ops cfg ts xs sig = []) := by
  constructor
  · simp only [slowPathAnalysis, driftDetectorSpec]
    split_ifs with hw
    · rfl
    · rw [show xs.length - windowSize xs.length - windowSize xs.length
            = xs.length - 2 * windowSize xs.length by omega]
      refine List.filterMap_congr fun i hi => ?_
      rw [if_pos (rollingMean_isSome_interior xs (windowSize xs.length) i
        (by omega) hi)]
  · intro hw
    simp only [slowPathAnalysis, if_pos hw]

/-! ## Claim C6: reconciliation classification -/

/-- The source's `all`-test for an isolated slow candidate coincides with
the claim's quantified statement. -/
theorem all_far_eq_decide (fast : List FastCand) (s : SlowCand) :
    isolatedTest fast s
      = decide (∀ f ∈ fast, 10 < |s.timestamp - f.timestamp|) := by
  rw [isolatedTest]
  by_cases h : ∀ f ∈ fast, 10 < |s.timestamp - f.timestamp|
  · rw [decide_eq_true h]
    exact List.all_eq_true.mpr fun f hf => decide_eq_true (h f hf)
  · rw [decide_eq_false h]
    push_neg at h
    obtain ⟨f, hfm, hle⟩ := h
    refine List.all_eq_false.mpr ⟨f, hfm, ?_⟩
    simpa using hle

/-- Pairing a mapped list with its source pairs each element with its
image. -/
theorem zip_map_self {α β : Type} (g : α → β) (l : List α) :
    (l.map g).zip l = l.map fun a => (g a, a) := by
  induction l with
  | nil => rfl
  | cons x xs ih => simp [ih]

/-- Claim C6: reconciliation emits, in order, one record per fast-path
candidate — classified `compound` with severity `max(fast, max matched
slow)` when some slow candidate on the same signal lies within 10 time
units, and `driver_mistake` with the fast severity otherwise — followed
by exactly one `degradation` record, with its own severity, per slow
candidate lying within 10 time units of no fast candidate. -/
theorem reconcile_classification (slow : List SlowCand)
    (fast : List FastCand) (sig : String) :
    (reconcilePaths slow fast sig).length = fast.length +
      ((slow.filter fun s =>
        decide (∀ f ∈ fast, 10 < |s.timestamp - f.timestamp|)).length) ∧
    (∀ p ∈ ((reconcilePaths slow fast sig).take fast.length).zip fast,
       p.1.timestamp = p.2.timestamp ∧
       ((∃ s ∈ slow, |s.timestamp - p.2.timestamp| ≤ 10) →
          p.1.rtype = "compound" ∧
          p.1.severity = max p.2.severity (maxSeverity
            (slow.filter fun s =>
              decide (|s.timestamp - p.2.timestamp| ≤ 10)))) ∧
       ((∀ s ∈ slow, ¬(|s.timestamp - p.2.timestamp| ≤ 10)) →
          p.1.rtype = "driver_mistake" ∧ p.1.severity = p.2.severity)) ∧
    ((reconcilePaths slow fast sig).drop fast.length).map
        (fun r => (r.timestamp, r.rtype, r.severity))
      = (slow.filter fun s =>
          decide (∀ f ∈ fast, 10 < |s.timestamp - f.timestamp|)).map
          (fun s => (s.timestamp, "degradation", s.severity)) := by
  have hB : (slow.filterMap fun s =>
        if isolatedTest fast s then some (degradationRecord sig s) else none)
      = (slow.filter fun s =>
          decide (∀ f ∈ fast, 10 < |s.timestamp - f.timestamp|)).map
          (degradationRecord sig) := by
    rw [filterMap_guard, List.filter_congr fun s _ => all_far_eq_decide fast s]
  refine ⟨?_, ?_, ?_⟩
  · rw [reconcilePaths, List.length_append, List.length_map, hB,
        List.length_map]
  · intro p hp
    rw [reconcilePaths, List.take_left' (by simp), zip_map_self,
        List.mem_map] at hp
    obtain ⟨f, hfm, rfl⟩ := hp
    refine ⟨?_, ?_, ?_⟩
    · simp only [reconcileFast]
      split_ifs <;> rfl
    · rintro ⟨s, hsm, hsd⟩
      have hne : slow.filter
          (fun s => decide (|s.timestamp - f.timestamp| ≤ 10)) ≠ [] :=
        List.ne_nil_of_mem (List.mem_filter.mpr ⟨hsm, decide_eq_true hsd⟩)
      simp only [reconcileFast]
      rw [if_neg (by simpa [List.isEmpty_iff] using hne)]
      exact ⟨rfl, rfl⟩
    · intro hall
      have hnil : slow.filter
          (fun s => decide (|s.timestamp - f.timestamp| ≤ 10)) = [] :=
        List.filter_eq_nil_iff.mpr fun s hsm => by simpa using hall s hsm
      simp only [reconcileFast]
      rw [if_pos (by simp [List.isEmpty_iff, hnil])]
      exact ⟨rfl, rfl⟩
  · rw [reconcilePaths, List.drop_left' (by simp), hB, List.map_map]
    rfl

/-! ## Claim C9: lap-based computation under uniform weights -/

/-- The uniform weights dict created when the sector table is absent or
empty. -/
def uniformWeightsMap : SectorWeightsMap :=
  ⟨some uniformSectorWeight, some uniformSectorWeight, some uniformSectorWeight⟩

/-- Without a sector table (or with an empty one) every sector receives
the uniform weight set. -/
theorem calcSectorWeights_uniform (ops : RealOps) (cfg : SiwtlConfig)
    (vl : List (ℕ × DriverRow)) (d : DriverData) (td : Option TelemetryData)
    (sd : Option SectorData)
    (hsd : sd = none ∨ ∃ s, sd = some s ∧ s.rows = []) :
    calcSectorWeights ops cfg vl d sd td = uniformWeightsMap := by
  rcases hsd with rfl | ⟨s, rfl, hrows⟩
  · rfl
  · simp only [calcSectorWeights, hrows]
    rfl

/-- Without a sector table (or with an empty one) the theoretical best
falls back to the best valid lap time. -/
theorem theoreticalBest_lap_based (vl : List (ℕ × DriverRow))
    (sd : Option SectorData)
    (hsd : sd = none ∨ ∃ s, sd = some s ∧ s.rows = []) :
    theoreticalBest vl sd =
      ⟨minListQ (vl.map lapMs) / 1000, ⟨none, none, none⟩, "lap_based"⟩ := by
  rcases hsd with rfl | ⟨s, rfl, hrows⟩
  · rfl
  · simp only [theoreticalBest, hrows]
    rfl

/-- Claim C9: with at least 5 valid laps and no sector table, every
sector receives the uniform weight set (all five sub-scores and the
combined weight equal to 1/3), and since `max(1/3, 0.1) = 1/3` the
lap-based computation returns `siwtl_lap` exactly `3 ×
theoretical_best_lap` and `achievability_score` exactly `1/3`. -/
theorem uniform_weights_without_sector_table (ops : RealOps)
    (cfg : SiwtlConfig) (now : String) (d : DriverData)
    (td : Option TelemetryData) (sd : Option SectorData)
    (h1 : d.hasLapNumber = true) (h2 : d.hasLapTimeMs = true)
    (h5 : 5 ≤ (validLaps d).length)
    (hsd : sd = none ∨ ∃ s, sd = some s ∧ s.rows = []) :
    ∃ r t, calculateSiwtl ops cfg now d sd td = .ok r ∧
      r.sectorWeights = some uniformWeightsMap ∧
      r.theoreticalBestLap = some t ∧
      r.siwtlLap = some (3 * t) ∧
      r.achievabilityScore = some (1/3) := by
  have hne : (validLaps d).map lapMs ≠ [] := by
    have : (validLaps d) ≠ [] := by
      intro h
      rw [h] at h5
      simp at h5
    simpa using this
  set t := minListQ ((validLaps d).map lapMs) / 1000 with htdef
  have ht120 : (120 : ℚ) ≤ t := by
    have hmin : (120000 : ℚ) ≤ minListQ ((validLaps d).map lapMs) := by
      refine le_minListQ _ _ hne ?_
      intro x hx
      rw [List.mem_map] at hx
      obtain ⟨p, hp, rfl⟩ := hx
      exact validLaps_ge d p hp
    rw [htdef]
    linarith
  have htne : t ≠ 0 := by linarith
  have hok : calculateSiwtl ops cfg now d sd td =
      .ok (addMetadata cfg now (validLaps d).length
        (computeSiwtl (theoreticalBest (validLaps d) sd)
          (calcSectorWeights ops cfg (validLaps d) d sd td)
          (validLaps d))) := by
    have hreq : ¬¬(d.hasLapNumber = true ∧ d.hasLapTimeMs = true) := by
      simp [h1, h2]
    simp only [calculateSiwtl, if_neg hreq]
    rw [if_neg (by omega)]
  rw [calcSectorWeights_uniform ops cfg (validLaps d) d td sd hsd,
      theoreticalBest_lap_based (validLaps d) sd hsd] at hok
  refine ⟨_, t, hok, rfl, rfl, ?_, ?_⟩
  · show some (if (SectorBests.count ⟨none, none, none⟩) ≠ 0 then _
        else t / max (if uniformWeightsMap.isEmptyMap then 3/4
          else mean uniformWeightsMap.combinedList) (1/10)) = some (3 * t)
    rw [if_neg (by decide)]
    have hmean : (if uniformWeightsMap.isEmptyMap then (3 : ℚ)/4
        else mean uniformWeightsMap.combinedList) = 1/3 := by rfl
    rw [hmean]
    have hmax : max ((1 : ℚ)/3) (1/10) = 1/3 := by norm_num
    rw [hmax, div_div_eq_mul_div, mul_comm]
    norm_num
  · show some (min 1 (t / (if (SectorBests.count ⟨none, none, none⟩) ≠ 0
        then _ else t / max (if uniformWeightsMap.isEmptyMap then 3/4
          else mean uniformWeightsMap.combinedList) (1/10)))) = some (1/3)
    rw [if_neg (by decide)]
    have hmean : (if uniformWeightsMap.isEmptyMap then (3 : ℚ)/4
        else mean uniformWeightsMap.combinedList) = 1/3 := by rfl
    rw [hmean]
    have hmax : max ((1 : ℚ)/3) (1/10) = 1/3 := by norm_num
    rw [hmax]
    have h3 : t / (t / (1/3)) = 1/3 := by
      rw [div_div_eq_mul_div, mul_comm, mul_div_assoc, div_self htne, mul_one]
    rw [h3]
    norm_num

/-- Witness for claim C7 at a concrete short signal: its window size
`min(30/10, 50) = 3` is below 5, the slow path is skipped, and the
detector agrees with its specification. -/
theorem drift_detector_matches_spec_witness :
    windowSize ((List.replicate 30 (0 : ℚ)).length) < 5 ∧
    slowPathAnalysis zeroOps defaultDptadConfig (fun i => (i : ℚ))
        (List.replicate 30 (0 : ℚ)) "speed" =
      driftDetectorSpec zeroOps defaultDptadConfig (fun i => (i : ℚ))
        (List.replicate 30 (0 : ℚ)) "speed" ∧
    slowPathAnalysis zeroOps defaultDptadConfig (fun i => (i : ℚ))
        (List.replicate 30 (0 : ℚ)) "speed" = [] :=
  ⟨by decide,
   (drift_detector_matches_spec zeroOps defaultDptadConfig
     (fun i => (i : ℚ)) (List.replicate 30 (0 : ℚ)) "speed").1,
   (drift_detector_matches_spec zeroOps defaultDptadConfig
     (fun i => (i : ℚ)) (List.replicate 30 (0 : ℚ)) "speed").2 (by decide)⟩

/-- The identity timestamp map (`timestamps = range(len)`), used by
concrete checks. -/
def natTs : ℕ → ℚ := fun i => (i : ℚ)

/-- A small telemetry table used by concrete checks. -/
def exTel : DpTelemetry := ⟨3, [("speed", [0, 5, 0])], none⟩

/-- Witness for claim C3 at the default configuration, the constant-zero
standard-deviation oracle, and a concrete telemetry table. -/
theorem severities_within_range_witness :
    (∀ l, 0 ≤ zeroOps.popStd l) ∧
    0 ≤ defaultDptadConfig.driftThreshold ∧
    0 ≤ defaultDptadConfig.spikeThreshold ∧
    (∀ r ∈ detectAnomalies zeroOps defaultDptadConfig (fun l => some l)
        (fun l => some l) (some exTel) none,
      0 ≤ r.severity ∧ r.severity ≤ 10) :=
  ⟨fun _ => le_refl 0, by norm_num [defaultDptadConfig],
   by norm_num [defaultDptadConfig],
   (severities_within_range zeroOps defaultDptadConfig natTs
     (fun _ => le_refl 0) (by norm_num [defaultDptadConfig])
     (by norm_num [defaultDptadConfig])).2.2.2
     (fun l => some l) (fun l => some l) (some exTel) none⟩

/-- Witness for claim C9 at a five-lap table without a sector table. -/
theorem uniform_weights_witness :
    exDriver5.hasLapNumber = true ∧ exDriver5.hasLapTimeMs = true ∧
    5 ≤ (validLaps exDriver5).length ∧
    (∃ r t, calculateSiwtl zeroOps defaultSiwtlConfig "t" exDriver5 none
        none = .ok r ∧
      r.sectorWeights = some uniformWeightsMap ∧
      r.theoreticalBestLap = some t ∧
      r.siwtlLap = some (3 * t) ∧
      r.achievabilityScore = some (1/3)) :=
  ⟨rfl, rfl, by decide,
   uniform_weights_without_sector_table zeroOps defaultSiwtlConfig "t"
     exDriver5 none none rfl rfl (by decide) (Or.inl rfl)⟩

end HTT
